import Mathlib

/-!
Verification of the user-account service of this repository
(`src/backend/src/users/users.service.ts`).

The service is embedded shallowly: the document store is a `List User`
queried by primary key, every collaborator call (persistence layer,
Cloudinary image store, preferences service) and every logger call is
recorded in an event trace, and each service method becomes a pure
function from the store and its inputs to a result, the new store and
the trace.  JavaScript truthiness on optional string fields is modelled
by `truthy : Option String → Bool` (absent and `""` are falsy).
-/

/-- `OperationStatus` from `filters/interface/response.interface`:
the status tag carried by response envelopes and structured log records. -/
inductive OperationStatus
  | success
  | error
deriving DecidableEq

/-- `ROLE` enum from `auth/enums/role.enum`; the service only ever writes
`ROLE.ADMIN`, the default at creation is the standard user role. -/
inductive ROLE
  | user
  | admin
deriving DecidableEq

/-- The avatar sub-document `{ url, publicId }` stored on a user. -/
structure Avatar where
  url : String
  publicId : String
deriving DecidableEq

/-- The `socials` sub-document `{ github?, twitter?, instagram?, linkedin? }`. -/
structure Socials where
  github : Option String
  twitter : Option String
  instagram : Option String
  linkedin : Option String
deriving DecidableEq

/-- A persisted user document, following the persisted shape
`{id, email, password?, firstName?, lastName?, bio?, country?, city?,
website?, socials, avatar?, role}`. -/
structure User where
  id : String
  email : String
  password : Option String
  firstName : Option String
  lastName : Option String
  bio : Option String
  country : Option String
  city : Option String
  website : Option String
  socials : Socials
  avatar : Option Avatar
  role : ROLE
deriving DecidableEq

/-- `UpdateUserDTO`: the patch accepted by `updateUser`.  Every field is
optional; an absent field is `none`. -/
structure UpdateUserDTO where
  bio : Option String
  country : Option String
  city : Option String
  firstName : Option String
  lastName : Option String
  website : Option String
  github : Option String
  twitter : Option String
  instagram : Option String
  linkedin : Option String
deriving DecidableEq

/-- `CreateUserDTO`: the fields of the creation input that
`UsersService.createUser` actually reads (`id` is passed to the
preferences service, the rest of the document is persisted as given;
only `email` matters to the claims). -/
structure CreateUserDTO where
  id : String
  email : String
deriving DecidableEq

/-- An uploaded file (`Express.Multer.File`); its contents are irrelevant
to the service logic, which only tests presence of the payload. -/
structure MulterFile where
  buffer : List Nat
deriving DecidableEq

/-- `HttpResponseType`: the uniform `{status, message, data}` success
envelope. -/
structure HttpResponseType (α : Type) where
  status : OperationStatus
  message : String
  data : α
deriving DecidableEq

/-- The kind of exception a method throws: `BadRequestException` or
`NotFoundException`. -/
inductive ErrKind
  | badRequest
  | notFound
deriving DecidableEq

/-- A thrown exception together with its human-readable message. -/
structure ServiceError where
  kind : ErrKind
  message : String
deriving DecidableEq

/-- One observable side effect of a service method: a logger call
(structured record or plain string), a persistence-layer call, an image
store call, or a preferences-service call. -/
inductive Event
  | logStructured (status : OperationStatus) (message : String)
  | logPlain (message : String)
  | dbFindById (id : String)
  | dbCreateUser (u : User)
  | dbUpdateOne (id : String)
  | cloudDeleteImage (publicId : String)
  | cloudUploadImage
  | prefCreatePreferences (userId : String)
deriving DecidableEq

/-- The outcome of a service method: the returned envelope or thrown
exception, the document store afterwards, and the ordered trace of
logger/collaborator calls it made. -/
structure Outcome (α : Type) where
  result : Except ServiceError α
  db : List User
  trace : List Event

/-- JavaScript truthiness of an optional string field: absent
(`undefined`) and the empty string are falsy. -/
def truthy : Option String → Bool
  | none => false
  | some s => !(s == "")

/-- Modelled from the spec: the utility `startsWithHttp`
(`src/utils/starts-with-http`, not present under `src/`) normalizes a
URL by prefixing the scheme `https://` when the value does not already
start with an `http` scheme, and returns a value that already carries a
scheme unchanged. -/
def startsWithHttp (url : String) : String :=
  if url.data.take 4 = "http".data then url else "https://" ++ url

/-- `this.userModel.findById(id)`: first document whose `id` matches. -/
def findById (db : List User) (id : String) : Option User :=
  db.find? (fun u => u.id == id)

/-- `document.updateOne(...)`: replace the documents matching `id` by the
updated document. -/
def replaceById (db : List User) (id : String) (u : User) : List User :=
  db.map (fun x => if x.id == id then u else x)

/-- One `...(dto.f && { f: dto.f })` spread entry of the `$set` object:
the patch value overwrites the stored value exactly when it is truthy. -/
def setField (patch stored : Option String) : Option String :=
  if truthy patch then patch else stored

/-- One `...(dto.f && { f: startsWithHttp(dto.f) })` spread entry: a
truthy patch value is normalized before it overwrites the stored value. -/
def setUrlField (patch stored : Option String) : Option String :=
  if truthy patch then patch.map startsWithHttp else stored

/-- The `$set` document built by `updateUser` (lines 158-193), applied to
the stored user. -/
def applyUpdate (dto : UpdateUserDTO) (u : User) : User :=
  { u with
    bio := setField dto.bio u.bio
    country := setField dto.country u.country
    city := setField dto.city u.city
    firstName := setField dto.firstName u.firstName
    lastName := setField dto.lastName u.lastName
    website := setUrlField dto.website u.website
    socials :=
      ⟨setUrlField dto.github u.socials.github,
       setUrlField dto.twitter u.socials.twitter,
       setUrlField dto.instagram u.socials.instagram,
       setUrlField dto.linkedin u.socials.linkedin⟩ }

/-- The structured `{status: ERROR, message, data: {}}` record passed to
`this.logger.error` on most failure branches. -/
def errorRecordLog (message : String) : Event :=
  Event.logStructured OperationStatus.error message

/-- `UsersService.updateUser(id, updateUserDto)`.  The guard is
`if (!updateUserDto)`: only an absent (null/undefined) patch is falsy in
JavaScript — a present patch object, even with no fields, passes the
guard.  The absent-patch branch logs the plain string
`this.logger.error("No changes made")`, not a structured record. -/
def updateUser (db : List User) (id : String) (patch : Option UpdateUserDTO) :
    Outcome (HttpResponseType Unit) :=
  match patch with
  | none =>
      ⟨Except.error ⟨ErrKind.badRequest, "No changes made"⟩, db,
        [Event.logPlain "No changes made"]⟩
  | some dto =>
      match findById db id with
      | none =>
          ⟨Except.error ⟨ErrKind.notFound, "User not found"⟩, db,
            [Event.dbFindById id, errorRecordLog "User not found"]⟩
      | some u =>
          ⟨Except.ok ⟨OperationStatus.success, "Account updated successfully", ()⟩,
            replaceById db id (applyUpdate dto u),
            [Event.dbFindById id, Event.dbUpdateOne id]⟩

/-- `UsersService.getUserById(id)`. -/
def getUserById (db : List User) (id : String) :
    Outcome (HttpResponseType User) :=
  match findById db id with
  | none =>
      ⟨Except.error ⟨ErrKind.notFound, "User not found"⟩, db,
        [Event.dbFindById id, errorRecordLog "User not found"]⟩
  | some u =>
      ⟨Except.ok ⟨OperationStatus.success, "", u⟩, db,
        [Event.dbFindById id]⟩

/-- `UsersService.uploadAvatar(id, avatar)`.  `uploadResult` is the
image-store oracle: `none` means `cloudinary.uploadImage` rejects (the
`.catch` branch), `some (secure_url, public_id)` means it resolves.  The
old asset is deleted only when `user?.avatar?.publicId` is truthy. -/
def uploadAvatar (db : List User) (id : String) (avatar : Option MulterFile)
    (uploadResult : Option (String × String)) :
    Outcome (HttpResponseType Unit) :=
  match avatar with
  | none =>
      ⟨Except.error ⟨ErrKind.badRequest, "file is empty"⟩, db,
        [errorRecordLog "file is empty"]⟩
  | some _ =>
      match findById db id with
      | none =>
          ⟨Except.error ⟨ErrKind.notFound, "User not found"⟩, db,
            [Event.dbFindById id, errorRecordLog "User not found"]⟩
      | some u =>
          let deleteTrace :=
            match u.avatar with
            | some av =>
                if av.publicId == "" then [] else [Event.cloudDeleteImage av.publicId]
            | none => []
          match uploadResult with
          | none =>
              ⟨Except.error ⟨ErrKind.badRequest, "file is empty"⟩, db,
                [Event.dbFindById id] ++ deleteTrace ++
                  [Event.cloudUploadImage, errorRecordLog "file is empty"]⟩
          | some (secureUrl, publicId) =>
              ⟨Except.ok ⟨OperationStatus.success, "Updated successfully", ()⟩,
                replaceById db id { u with avatar := some ⟨secureUrl, publicId⟩ },
                [Event.dbFindById id] ++ deleteTrace ++
                  [Event.cloudUploadImage, Event.dbUpdateOne id]⟩

/-- `UsersService.makeAdmin(userIdDto)`: `user.updateOne({ role: ROLE.ADMIN })`
sets only the role field. -/
def makeAdmin (db : List User) (userId : String) :
    Outcome (HttpResponseType Unit) :=
  match findById db userId with
  | none =>
      ⟨Except.error ⟨ErrKind.notFound, "User not found"⟩, db,
        [Event.dbFindById userId, errorRecordLog "User not found"]⟩
  | some u =>
      ⟨Except.ok ⟨OperationStatus.success, "User role updated successfully", ()⟩,
        replaceById db userId { u with role := ROLE.admin },
        [Event.dbFindById userId, Event.dbUpdateOne userId]⟩

/-- The user document persisted by `this.userModel.create(createUserDto)`:
the given fields, default role. -/
def userFromCreateDto (dto : CreateUserDTO) : User :=
  ⟨dto.id, dto.email, none, none, none, none, none, none, none,
    ⟨none, none, none, none⟩, none, ROLE.user⟩

/-- Outcome of `createUser`: user store, preferences store (the list of
user ids owning a preferences record) and the trace. -/
structure CreateOutcome where
  db : List User
  prefs : List String
  trace : List Event

/-- `UsersService.createUser(createUserDto)`: persists the user, then asks
the preferences service for a companion record keyed by the new user's id. -/
def createUser (db : List User) (prefs : List String) (dto : CreateUserDTO) :
    CreateOutcome :=
  ⟨db ++ [userFromCreateDto dto], prefs ++ [dto.id],
    [Event.logPlain "Creating a new user",
     Event.dbCreateUser (userFromCreateDto dto),
     Event.logPlain "Creating user preferences",
     Event.prefCreatePreferences dto.id]⟩

/-- Is this event a logger call? -/
def Event.isLog : Event → Bool
  | .logStructured _ _ => true
  | .logPlain _ => true
  | _ => false

/-- Is this event the structured `{status: ERROR, message, data}` record? -/
def Event.isStructuredErrorLog : Event → Bool
  | .logStructured OperationStatus.error _ => true
  | _ => false

/-- Is this event a user-document creation in the persistence layer? -/
def Event.isDbCreateUser : Event → Bool
  | .dbCreateUser _ => true
  | _ => false

/-- Is this event a preferences-record creation? -/
def Event.isPrefCreate : Event → Bool
  | .prefCreatePreferences _ => true
  | _ => false

/-- Is this event a call to a collaborator (persistence layer, image
store, or preferences service), as opposed to a logger call? -/
def Event.isCollaboratorCall : Event → Bool
  | .dbFindById _ => true
  | .dbCreateUser _ => true
  | .dbUpdateOne _ => true
  | .cloudDeleteImage _ => true
  | .cloudUploadImage => true
  | .prefCreatePreferences _ => true
  | _ => false

/-- The uniform failure-logging contract the spec asserts of every
failing branch: when the method throws, it logged exactly one record and
that record is the structured `{status, message, context}` shape. -/
def FailureLogsStructuredOnce {α : Type} (o : Outcome α) : Prop :=
  (∃ e, o.result = Except.error e) →
    (o.trace.filter Event.isLog).length = 1 ∧
      ∀ ev ∈ o.trace, Event.isLog ev = true → Event.isStructuredErrorLog ev = true

/-- The spec's uniform two-part failure contract quantified over every
operation and input of the service. -/
def UniformFailureContract : Prop :=
  (∀ db id patch, FailureLogsStructuredOnce (updateUser db id patch)) ∧
  (∀ db id file upl, FailureLogsStructuredOnce (uploadAvatar db id file upl)) ∧
  (∀ db id, FailureLogsStructuredOnce (getUserById db id)) ∧
  (∀ db id, FailureLogsStructuredOnce (makeAdmin db id))

/-- A patch object that is present but has no field set (`{}`), which is
truthy in JavaScript. -/
def emptyUpdateDTO : UpdateUserDTO :=
  ⟨none, none, none, none, none, none, none, none, none, none⟩

/-- A concrete stored user used by counterexamples and witnesses. -/
def demoUser : User :=
  ⟨"u1", "mentor@example.com", none, none, none, some "old bio", none, none,
    none, ⟨none, none, none, none⟩, none, ROLE.user⟩

/-- A concrete stored user that already has an avatar. -/
def demoUserWithAvatar : User :=
  ⟨"u2", "mentor2@example.com", none, none, none, none, none, none,
    none, ⟨none, none, none, none⟩, some ⟨"https://img/old.png", "old-id"⟩,
    ROLE.user⟩

/-- A document found by id satisfies the lookup predicate. -/
theorem findById_beq (db : List User) (id : String) (u : User)
    (h : findById db id = some u) : (u.id == id) = true := by
  unfold findById at h
  have hp := List.find?_some h
  simpa using hp

/-- Searching a mapped list when the map sends every match to `u'` and
fixes every non-match: if the search succeeded before, it now yields `u'`. -/
theorem find_map_update {α : Type} (p : α → Bool) (f : α → α) (u' : α)
    (hf : ∀ a, p a = true → f a = u') (hn : ∀ a, p a = false → f a = a)
    (hp : p u' = true) :
    ∀ l : List α, ∀ a, l.find? p = some a → (l.map f).find? p = some u' := by
  intro l
  induction l with
  | nil => intro a ha; simp at ha
  | cons x xs ih =>
    intro a ha
    cases hx : p x with
    | true =>
      simp only [List.map_cons, hf x hx]
      simp [List.find?_cons, hp]
    | false =>
      rw [List.find?_cons, hx] at ha
      simp only [List.map_cons, hn x hx]
      rw [List.find?_cons, hx]
      exact ih a ha

/-- Mapping an idempotent-on-its-image function twice is the same as
mapping it once. -/
theorem map_update_idem {α : Type} (f : α → α) (hff : ∀ a, f (f a) = f a) :
    ∀ l : List α, (l.map f).map f = l.map f := by
  intro l
  induction l with
  | nil => rfl
  | cons x xs ih => simp only [List.map_cons, hff, ih]

/-- Looking up an id after replacing its document finds the replacement,
provided the replacement keeps the id. -/
theorem findById_replaceById (db : List User) (id : String) (u u' : User)
    (h : findById db id = some u) (hid : u'.id = u.id) :
    findById (replaceById db id u') id = some u' := by
  have hu : (u'.id == id) = true := by
    rw [hid]; exact findById_beq db id u h
  unfold findById at h
  unfold findById replaceById
  exact find_map_update (fun v => v.id == id) (fun x => if x.id == id then u' else x) u'
    (fun a ha => by simp only at ha; simp [ha])
    (fun a ha => by simp only at ha; simp [ha])
    hu db u h

/-- Replacing a document by `u'` is idempotent when `u'` itself matches
the id. -/
theorem replaceById_replaceById (db : List User) (id : String) (u' : User)
    (h : (u'.id == id) = true) :
    replaceById (replaceById db id u') id u' = replaceById db id u' := by
  unfold replaceById
  apply map_update_idem
  intro a
  cases hx : a.id == id with
  | true => simp [h]
  | false => simp [hx]

/-- A present patch that sets only `bio`, to the empty string. -/
def patchBioEmpty : UpdateUserDTO :=
  ⟨some "", none, none, none, none, none, none, none, none, none⟩

/-- A present patch that sets only `website`, to a scheme-less URL. -/
def patchWebsite : UpdateUserDTO :=
  ⟨none, none, none, none, none, some "example.com", none, none, none, none⟩

/-- Claim C1, counterexample.  The claim says `updateUser` with an empty
or absent patch fails with BadRequest and performs no write; but the
guard `if (!updateUserDto)` lets a present-but-empty patch object (which
is truthy in JavaScript) through: on a store holding `demoUser`, the
empty patch yields the success envelope and an `updateOne` write, not a
BadRequest failure. -/
theorem updateUser_empty_patch_succeeds_cex :
    (updateUser [demoUser] "u1" (some emptyUpdateDTO)).result =
      Except.ok ⟨OperationStatus.success, "Account updated successfully", ()⟩ ∧
    (updateUser [demoUser] "u1" (some emptyUpdateDTO)).trace =
      [Event.dbFindById "u1", Event.dbUpdateOne "u1"] :=
  ⟨rfl, rfl⟩

/-- Claim C1, amended.  For every user id, `updateUser` with an absent
(null/undefined) patch fails with BadRequest and performs no
collaborator call; a present but empty patch instead passes the guard:
it returns the success envelope and leaves the stored user record
unchanged (its `$set` is empty). -/
theorem updateUser_absent_patch_rejected (db : List User) (id : String) :
    (updateUser db id none).result =
      Except.error ⟨ErrKind.badRequest, "No changes made"⟩ ∧
    (updateUser db id none).db = db ∧
    ((updateUser db id none).trace.filter Event.isCollaboratorCall) = [] ∧
    (∀ u, findById db id = some u →
      (updateUser db id (some emptyUpdateDTO)).result =
        Except.ok ⟨OperationStatus.success, "Account updated successfully", ()⟩ ∧
      findById (updateUser db id (some emptyUpdateDTO)).db id = some u) := by
  refine ⟨rfl, rfl, rfl, ?_⟩
  intro u h
  refine ⟨by simp [updateUser, h], ?_⟩
  simp only [updateUser, h]
  rw [show applyUpdate emptyUpdateDTO u = u from rfl]
  exact findById_replaceById db id u u h rfl

/-- Claim C1, witness for the amended theorem at a concrete store. -/
theorem updateUser_absent_patch_rejected_witness :
    (updateUser [demoUser] "u1" none).result =
      Except.error ⟨ErrKind.badRequest, "No changes made"⟩ ∧
    findById (updateUser [demoUser] "u1" (some emptyUpdateDTO)).db "u1" =
      some demoUser :=
  ⟨(updateUser_absent_patch_rejected [demoUser] "u1").1,
   ((updateUser_absent_patch_rejected [demoUser] "u1").2.2.2 demoUser
      (by decide)).2⟩

/-- Claim C2: `createUser` appends exactly one user record, whose email
equals the input email, and asks the preferences service for exactly one
companion record keyed by that new user's id. -/
theorem createUser_persists_user_and_preferences
    (db : List User) (prefs : List String) (dto : CreateUserDTO) :
    (createUser db prefs dto).db = db ++ [userFromCreateDto dto] ∧
    (userFromCreateDto dto).email = dto.email ∧
    (createUser db prefs dto).prefs = prefs ++ [(userFromCreateDto dto).id] ∧
    ((createUser db prefs dto).trace.filter Event.isDbCreateUser) =
      [Event.dbCreateUser (userFromCreateDto dto)] ∧
    ((createUser db prefs dto).trace.filter Event.isPrefCreate) =
      [Event.prefCreatePreferences (userFromCreateDto dto).id] :=
  ⟨rfl, rfl, rfl, rfl, rfl⟩

/-- Claim C5: `uploadAvatar` with an empty (absent) file payload fails
with BadRequest after a single structured log, with no call to the
persistence layer or the image store on its trace. -/
theorem uploadAvatar_empty_file_rejected (db : List User) (id : String)
    (uploadResult : Option (String × String)) :
    uploadAvatar db id none uploadResult =
      ⟨Except.error ⟨ErrKind.badRequest, "file is empty"⟩, db,
        [errorRecordLog "file is empty"]⟩ ∧
    ((uploadAvatar db id none uploadResult).trace.filter
        Event.isCollaboratorCall) = [] :=
  ⟨rfl, rfl⟩

/-- Claim C7: `getUserById` fails with NotFound when no record matches
the id, and for an existing id returns the success envelope whose `data`
equals the stored record. -/
theorem getUserById_spec (db : List User) (id : String) :
    (findById db id = none →
      (getUserById db id).result =
        Except.error ⟨ErrKind.notFound, "User not found"⟩ ∧
      (getUserById db id).db = db) ∧
    (∀ u, findById db id = some u →
      (getUserById db id).result =
        Except.ok ⟨OperationStatus.success, "", u⟩ ∧
      (getUserById db id).db = db) := by
  constructor
  · intro h
    exact ⟨by simp [getUserById, h], by simp [getUserById, h]⟩
  · intro u h
    exact ⟨by simp [getUserById, h], by simp [getUserById, h]⟩

/-- Claim C7, witness: a missing id and a present id on concrete stores. -/
theorem getUserById_spec_witness :
    (getUserById [] "u1").result =
      Except.error ⟨ErrKind.notFound, "User not found"⟩ ∧
    (getUserById [demoUser] "u1").result =
      Except.ok ⟨OperationStatus.success, "", demoUser⟩ :=
  ⟨((getUserById_spec [] "u1").1 (by decide)).1,
   ((getUserById_spec [demoUser] "u1").2 demoUser (by decide)).1⟩

/-- Claim C3: for every existing user, `updateUser` overwrites exactly
those stored fields whose patch value is present and truthy (URL fields
receiving the normalized value) and leaves every field with an absent or
falsy patch value untouched; in particular `bio: ""` leaves the stored
bio unchanged. -/
theorem updateUser_truthy_partial_update (db : List User) (id : String)
    (dto : UpdateUserDTO) (u : User) (h : findById db id = some u) :
    (updateUser db id (some dto)).result =
      Except.ok ⟨OperationStatus.success, "Account updated successfully", ()⟩ ∧
    findById (updateUser db id (some dto)).db id = some (applyUpdate dto u) ∧
    (applyUpdate dto u).bio = (if truthy dto.bio then dto.bio else u.bio) ∧
    (applyUpdate dto u).country =
      (if truthy dto.country then dto.country else u.country) ∧
    (applyUpdate dto u).city = (if truthy dto.city then dto.city else u.city) ∧
    (applyUpdate dto u).firstName =
      (if truthy dto.firstName then dto.firstName else u.firstName) ∧
    (applyUpdate dto u).lastName =
      (if truthy dto.lastName then dto.lastName else u.lastName) ∧
    (applyUpdate dto u).website =
      (if truthy dto.website then dto.website.map startsWithHttp else u.website) ∧
    (applyUpdate dto u).socials.github =
      (if truthy dto.github then dto.github.map startsWithHttp
       else u.socials.github) ∧
    (applyUpdate dto u).socials.twitter =
      (if truthy dto.twitter then dto.twitter.map startsWithHttp
       else u.socials.twitter) ∧
    (applyUpdate dto u).socials.instagram =
      (if truthy dto.instagram then dto.instagram.map startsWithHttp
       else u.socials.instagram) ∧
    (applyUpdate dto u).socials.linkedin =
      (if truthy dto.linkedin then dto.linkedin.map startsWithHttp
       else u.socials.linkedin) ∧
    (dto.bio = some "" → (applyUpdate dto u).bio = u.bio) := by
  refine ⟨by simp [updateUser, h], ?_, rfl, rfl, rfl, rfl, rfl, rfl, rfl, rfl,
    rfl, rfl, ?_⟩
  · simp only [updateUser, h]
    exact findById_replaceById db id u _ h rfl
  · intro hb
    simp [applyUpdate, setField, truthy, hb]

/-- Claim C3, witness: on a concrete store, the patch `bio: ""` returns
the success envelope and leaves the stored bio unchanged. -/
theorem updateUser_truthy_partial_update_witness :
    findById [demoUser] "u1" = some demoUser ∧
    (updateUser [demoUser] "u1" (some patchBioEmpty)).result =
      Except.ok ⟨OperationStatus.success, "Account updated successfully", ()⟩ ∧
    (applyUpdate patchBioEmpty demoUser).bio = demoUser.bio :=
  ⟨by decide,
   (updateUser_truthy_partial_update [demoUser] "u1" patchBioEmpty demoUser
      (by decide)).1,
   (updateUser_truthy_partial_update [demoUser] "u1" patchBioEmpty demoUser
      (by decide)).2.2.2.2.2.2.2.2.2.2.2.2 rfl⟩

/-- Claim C4: for every existing user, `updateUser` stores each
present-and-truthy website/github/twitter/instagram/linkedin patch value
normalized by `startsWithHttp`, which prefixes `https://` when the
scheme is missing and returns values already carrying a scheme
unchanged: `"example.com"` is stored as `"https://example.com"`, while
`"https://example.com"` is stored as-is. -/
theorem updateUser_normalizes_urls (db : List User) (id : String)
    (dto : UpdateUserDTO) (u : User) (h : findById db id = some u) :
    findById (updateUser db id (some dto)).db id = some (applyUpdate dto u) ∧
    (∀ w, dto.website = some w → w ≠ "" →
      (applyUpdate dto u).website = some (startsWithHttp w)) ∧
    (∀ w, dto.github = some w → w ≠ "" →
      (applyUpdate dto u).socials.github = some (startsWithHttp w)) ∧
    (∀ w, dto.twitter = some w → w ≠ "" →
      (applyUpdate dto u).socials.twitter = some (startsWithHttp w)) ∧
    (∀ w, dto.instagram = some w → w ≠ "" →
      (applyUpdate dto u).socials.instagram = some (startsWithHttp w)) ∧
    (∀ w, dto.linkedin = some w → w ≠ "" →
      (applyUpdate dto u).socials.linkedin = some (startsWithHttp w)) ∧
    (∀ s, s.data.take 4 = "http".data → startsWithHttp s = s) ∧
    startsWithHttp "example.com" = "https://example.com" ∧
    startsWithHttp "https://example.com" = "https://example.com" := by
  refine ⟨?_, ?_, ?_, ?_, ?_, ?_, ?_, by decide, by decide⟩
  · simp only [updateUser, h]
    exact findById_replaceById db id u _ h rfl
  · intro w hw hne
    simp [applyUpdate, setUrlField, truthy, hw, hne]
  · intro w hw hne
    simp [applyUpdate, setUrlField, truthy, hw, hne]
  · intro w hw hne
    simp [applyUpdate, setUrlField, truthy, hw, hne]
  · intro w hw hne
    simp [applyUpdate, setUrlField, truthy, hw, hne]
  · intro w hw hne
    simp [applyUpdate, setUrlField, truthy, hw, hne]
  · intro s hs
    simp [startsWithHttp, hs]

/-- Claim C4, witness: on a concrete store, a patch with
`website: "example.com"` stores `"https://example.com"`. -/
theorem updateUser_normalizes_urls_witness :
    findById [demoUser] "u1" = some demoUser ∧
    (applyUpdate patchWebsite demoUser).website = some "https://example.com" :=
  ⟨by decide, by
    have hw := (updateUser_normalizes_urls [demoUser] "u1" patchWebsite demoUser
      (by decide)).2.1 "example.com" rfl (by decide)
    rw [hw]
    decide⟩

/-- Claim C10: for every existing user and every patch, `updateUser`
leaves the user's id, email, password, role, and avatar unchanged — its
update set ranges only over the profile fields. -/
theorem updateUser_frame_identity_fields (db : List User) (id : String)
    (dto : UpdateUserDTO) (u : User) (h : findById db id = some u) :
    findById (updateUser db id (some dto)).db id = some (applyUpdate dto u) ∧
    (applyUpdate dto u).id = u.id ∧
    (applyUpdate dto u).email = u.email ∧
    (applyUpdate dto u).password = u.password ∧
    (applyUpdate dto u).role = u.role ∧
    (applyUpdate dto u).avatar = u.avatar := by
  refine ⟨?_, rfl, rfl, rfl, rfl, rfl⟩
  simp only [updateUser, h]
  exact findById_replaceById db id u _ h rfl

/-- Claim C10, witness: the website patch on a concrete store does not
change email, password, role, or avatar. -/
theorem updateUser_frame_identity_fields_witness :
    findById [demoUser] "u1" = some demoUser ∧
    (applyUpdate patchWebsite demoUser).email = demoUser.email ∧
    (applyUpdate patchWebsite demoUser).role = demoUser.role :=
  ⟨by decide,
   (updateUser_frame_identity_fields [demoUser] "u1" patchWebsite demoUser
      (by decide)).2.2.1,
   (updateUser_frame_identity_fields [demoUser] "u1" patchWebsite demoUser
      (by decide)).2.2.2.2.1⟩

/-- Claim C6: for an existing user whose stored avatar is a complete
pair (per the data-model invariant its `publicId` is non-empty),
`uploadAvatar` issues the image-store delete of the old asset strictly
before the upload of the new one; when the upload rejects it fails with
BadRequest, and when it resolves it stores the returned (url, id) pair
on the user record as a complete pair. -/
theorem uploadAvatar_delete_before_upload (db : List User) (id : String)
    (file : MulterFile) (u : User) (av : Avatar)
    (hf : findById db id = some u) (ha : u.avatar = some av)
    (hp : av.publicId ≠ "") :
    (uploadAvatar db id (some file) none).trace =
      [Event.dbFindById id, Event.cloudDeleteImage av.publicId,
       Event.cloudUploadImage, errorRecordLog "file is empty"] ∧
    (uploadAvatar db id (some file) none).result =
      Except.error ⟨ErrKind.badRequest, "file is empty"⟩ ∧
    (∀ url pid,
      (uploadAvatar db id (some file) (some (url, pid))).trace =
        [Event.dbFindById id, Event.cloudDeleteImage av.publicId,
         Event.cloudUploadImage, Event.dbUpdateOne id] ∧
      (uploadAvatar db id (some file) (some (url, pid))).result =
        Except.ok ⟨OperationStatus.success, "Updated successfully", ()⟩ ∧
      findById (uploadAvatar db id (some file) (some (url, pid))).db id =
        some { u with avatar := some ⟨url, pid⟩ }) := by
  have hb : (av.publicId == "") = false := by simp [hp]
  refine ⟨?_, ?_, ?_⟩
  · simp [uploadAvatar, hf, ha, hb]
  · simp [uploadAvatar, hf, ha, hb]
  · intro url pid
    refine ⟨?_, ?_, ?_⟩
    · simp [uploadAvatar, hf, ha, hb]
    · simp [uploadAvatar, hf, ha, hb]
    · simp only [uploadAvatar, hf]
      exact findById_replaceById db id u _ hf rfl

/-- Claim C6, witness: on a concrete store whose user already has an
avatar, the delete of the old asset precedes the upload on the trace. -/
theorem uploadAvatar_delete_before_upload_witness :
    findById [demoUserWithAvatar] "u2" = some demoUserWithAvatar ∧
    (uploadAvatar [demoUserWithAvatar] "u2" (some ⟨[]⟩)
        (some ("https://img/new.png", "new-id"))).trace =
      [Event.dbFindById "u2", Event.cloudDeleteImage "old-id",
       Event.cloudUploadImage, Event.dbUpdateOne "u2"] :=
  ⟨by decide,
   ((uploadAvatar_delete_before_upload [demoUserWithAvatar] "u2" ⟨[]⟩
      demoUserWithAvatar ⟨"https://img/old.png", "old-id"⟩ (by decide) rfl
      (by decide)).2.2 "https://img/new.png" "new-id").1⟩

/-- Claim C8: `makeAdmin` fails with NotFound when the user does not
exist; for an existing user it sets the role to the administrator value,
returns the success envelope with no payload, and is idempotent: a
second application leaves the store exactly as after the first. -/
theorem makeAdmin_sets_admin_and_idempotent (db : List User) (id : String) :
    (findById db id = none →
      (makeAdmin db id).result =
        Except.error ⟨ErrKind.notFound, "User not found"⟩ ∧
      (makeAdmin db id).db = db) ∧
    (∀ u, findById db id = some u →
      (makeAdmin db id).result =
        Except.ok ⟨OperationStatus.success, "User role updated successfully", ()⟩ ∧
      findById (makeAdmin db id).db id = some { u with role := ROLE.admin } ∧
      (makeAdmin (makeAdmin db id).db id).db = (makeAdmin db id).db) := by
  constructor
  · intro h
    exact ⟨by simp [makeAdmin, h], by simp [makeAdmin, h]⟩
  · intro u h
    have hu : (u.id == id) = true := findById_beq db id u h
    have h2 : findById (replaceById db id { u with role := ROLE.admin }) id =
        some { u with role := ROLE.admin } :=
      findById_replaceById db id u _ h rfl
    refine ⟨by simp [makeAdmin, h], ?_, ?_⟩
    · simp only [makeAdmin, h]
      exact h2
    · simp only [makeAdmin, h, h2]
      exact replaceById_replaceById db id _ hu

/-- Claim C8, witness: on a concrete store, `makeAdmin` stores the admin
role and a second application leaves the store unchanged. -/
theorem makeAdmin_sets_admin_and_idempotent_witness :
    findById [demoUser] "u1" = some demoUser ∧
    findById (makeAdmin [demoUser] "u1").db "u1" =
      some { demoUser with role := ROLE.admin } ∧
    (makeAdmin (makeAdmin [demoUser] "u1").db "u1").db =
      (makeAdmin [demoUser] "u1").db :=
  ⟨by decide,
   ((makeAdmin_sets_admin_and_idempotent [demoUser] "u1").2 demoUser
      (by decide)).2.1,
   ((makeAdmin_sets_admin_and_idempotent [demoUser] "u1").2 demoUser
      (by decide)).2.2⟩

/-- A failing outcome whose log filter is exactly one structured error
record satisfies the structured-logging contract. -/
theorem structuredOnce_of_filter {α : Type} (o : Outcome α) (m : String)
    (ht : o.trace.filter Event.isLog = [errorRecordLog m]) :
    (o.trace.filter Event.isLog).length = 1 ∧
      ∀ ev ∈ o.trace, Event.isLog ev = true →
        Event.isStructuredErrorLog ev = true := by
  refine ⟨by rw [ht]; rfl, ?_⟩
  intro ev hev hlog
  have hmem : ev ∈ o.trace.filter Event.isLog := List.mem_filter.mpr ⟨hev, hlog⟩
  rw [ht] at hmem
  have hev2 : ev = errorRecordLog m := by simpa using hmem
  subst hev2
  rfl

/-- Claim C9, counterexample.  The claim says every failing branch of
every operation logs a structured `{status, message, context}` record;
but `updateUser`'s absent-patch branch logs the plain string
`"No changes made"` (line 143), so the uniform contract is false. -/
theorem failure_log_uniformity_cex : ¬ UniformFailureContract := by
  intro h
  have h2 := (h.1 [] "u1" none
      ⟨⟨ErrKind.badRequest, "No changes made"⟩, rfl⟩).2
      (Event.logPlain "No changes made") (by simp [updateUser]) rfl
  simp [Event.isStructuredErrorLog] at h2

/-- Claim C9, amended.  Every failing branch logs exactly one record and
raises exactly one error; every branch logs the structured
`{status, message, context}` record except `updateUser`'s absent-patch
branch, which logs the plain string `"No changes made"`. -/
theorem failure_log_contract_amended :
    (∀ db id dto, FailureLogsStructuredOnce (updateUser db id (some dto))) ∧
    (∀ db id file upl, FailureLogsStructuredOnce (uploadAvatar db id file upl)) ∧
    (∀ db id, FailureLogsStructuredOnce (getUserById db id)) ∧
    (∀ db id, FailureLogsStructuredOnce (makeAdmin db id)) ∧
    (∀ db id,
      (updateUser db id none).result =
        Except.error ⟨ErrKind.badRequest, "No changes made"⟩ ∧
      (updateUser db id none).trace = [Event.logPlain "No changes made"]) := by
  refine ⟨?_, ?_, ?_, ?_, fun db id => ⟨rfl, rfl⟩⟩
  · intro db id dto hE
    cases hf : findById db id with
    | none =>
      exact structuredOnce_of_filter _ "User not found"
        (by simp [updateUser, hf, Event.isLog, errorRecordLog])
    | some u =>
      exfalso
      rcases hE with ⟨e, he⟩
      simp [updateUser, hf] at he
  · intro db id file upl hE
    cases file with
    | none =>
      exact structuredOnce_of_filter _ "file is empty"
        (by simp [uploadAvatar, Event.isLog, errorRecordLog])
    | some f =>
      cases hf : findById db id with
      | none =>
        exact structuredOnce_of_filter _ "User not found"
          (by simp [uploadAvatar, hf, Event.isLog, errorRecordLog])
      | some u =>
        cases upl with
        | none =>
          refine structuredOnce_of_filter _ "file is empty" ?_
          cases ha : u.avatar with
          | none => simp [uploadAvatar, hf, ha, Event.isLog, errorRecordLog]
          | some av =>
            cases hb : av.publicId == "" with
            | true => simp [uploadAvatar, hf, ha, hb, Event.isLog, errorRecordLog]
            | false => simp [uploadAvatar, hf, ha, hb, Event.isLog, errorRecordLog]
        | some r =>
          exfalso
          rcases hE with ⟨e, he⟩
          cases r with
          | mk url pid => simp [uploadAvatar, hf] at he
  · intro db id hE
    cases hf : findById db id with
    | none =>
      exact structuredOnce_of_filter _ "User not found"
        (by simp [getUserById, hf, Event.isLog, errorRecordLog])
    | some u =>
      exfalso
      rcases hE with ⟨e, he⟩
      simp [getUserById, hf] at he
  · intro db id hE
    cases hf : findById db id with
    | none =>
      exact structuredOnce_of_filter _ "User not found"
        (by simp [makeAdmin, hf, Event.isLog, errorRecordLog])
    | some u =>
      exfalso
      rcases hE with ⟨e, he⟩
      simp [makeAdmin, hf] at he

/-- Claim C9, witness for the amended theorem: a failing `getUserById`
logs exactly one record, and the absent-patch `updateUser` branch logs
the plain string. -/
theorem failure_log_contract_amended_witness :
    ((getUserById [] "u1").trace.filter Event.isLog).length = 1 ∧
    (updateUser [] "u1" none).trace = [Event.logPlain "No changes made"] :=
  ⟨(failure_log_contract_amended.2.2.1 [] "u1"
      ⟨⟨ErrKind.notFound, "User not found"⟩, rfl⟩).1,
   (failure_log_contract_amended.2.2.2.2 [] "u1").2⟩
